import Mathlib

/-!
Verification of the sailing-simulator core (`src/utils/physics.ts`,
`src/constants.ts`, `src/types.ts` and the main `App` component).

Conventions of the shallow embedding:

* JavaScript numbers are modelled as rationals (`ℚ`).
* Angles are represented by their measure **in units of π**: a stored value
  `q : ℚ` stands for the angle `q·π` radians.  Under this change of scale the
  source's `Math.PI` becomes `1`, `2 * Math.PI` becomes `2`, and the
  radian→degree conversion `(· * 180) / Math.PI` becomes `(· * 180)`.
  The interval `[-π, π]` becomes `[-1, 1]`.
* `Math.cos` / `Math.sin` are modelled as oracle parameters
  `cosF sinF : ℚ → ℚ` wherever the code consumes their values.
* `Math.random()` is modelled as an explicit sample stream `ℕ → ℚ × ℚ × ℚ`
  (one triple per placement attempt: radius, x and y samples), each
  component ranging over `[0, 1)`.
* JavaScript's truncated remainder `x % y` (for `y > 0`) is `jsMod`.
* The two imperative passes of `generateRandomRocks` become structural
  recursions on an explicit attempt budget (`maxAttempts = 3000`), and the
  boolean-returning mutating closure `tryAddRock` becomes an
  `Option`-returning function on the accumulated rock list.
-/

namespace SegelSim

/-- Truncation toward zero, as performed by JavaScript's `%` on the dividend. -/
def ratTrunc (q : ℚ) : ℤ := if 0 ≤ q then ⌊q⌋ else ⌈q⌉

/-- JavaScript remainder `x % y` for a positive modulus `y`. -/
def jsMod (x y : ℚ) : ℚ := x - y * (ratTrunc (x / y) : ℚ)

/-- `clamp` helper of the App component: `Math.max(min, Math.min(max, n))`. -/
def clamp (n mn mx : ℚ) : ℚ := max mn (min mx n)

/-- `src/constants.ts`: `WIND_SPEED = 15`. -/
def WIND_SPEED : ℚ := 15

/-- `src/constants.ts`: `MAX_BOAT_SPEED = 5`. -/
def MAX_BOAT_SPEED : ℚ := 5

/-- `src/constants.ts`: `TURN_RATE = 0.04`. -/
def TURN_RATE : ℚ := 4/100

/-- `src/constants.ts`: `ACCELERATION = 0.05`. -/
def ACCELERATION : ℚ := 5/100

/-- `src/constants.ts`: `DRAG = 0.02`. -/
def DRAG : ℚ := 2/100

/-- `src/constants.ts`: `NO_GO_ZONE_DEG = 45`. -/
def NO_GO_ZONE_DEG : ℚ := 45

/-- `src/constants.ts` `normalizeAngle`: reduce an angle to `[-π, π]`
(here `[-1, 1]`, angles in units of π):
`let a = angle % (2π); if (a > π) a -= 2π; if (a < -π) a += 2π; return a;`. -/
def normalizeAngle (angle : ℚ) : ℚ :=
  let a0 := jsMod angle 2
  let a1 := if a0 > 1 then a0 - 2 else a0
  if a1 < -1 then a1 + 2 else a1

/-- `src/types.ts` `Vector2D`. -/
structure Vector2D where
  x : ℚ
  y : ℚ
  deriving DecidableEq, Repr

/-- `src/types.ts` `WindState`. -/
structure WindState where
  direction : ℚ
  speed : ℚ
  deriving DecidableEq, Repr

/-- `src/types.ts` `BoatState`. -/
structure BoatState where
  position : Vector2D
  heading : ℚ
  speed : ℚ
  rudderAngle : ℚ
  sailAngle : ℚ
  deriving DecidableEq, Repr

/-- `src/types.ts` `RockState`. -/
structure RockState where
  position : Vector2D
  radius : ℚ
  deriving DecidableEq, Repr

/-- The upgrade record of the App component (`hasSail`, `turnMultiplier`,
`speedMultiplier`, `revealMap`). -/
structure Upgrades where
  hasSail : Bool
  turnMultiplier : ℚ
  speedMultiplier : ℚ
  revealMap : Bool
  deriving DecidableEq, Repr

/-- Held steering keys at the start of a tick (`ArrowLeft`/`KeyA` and
`ArrowRight`/`KeyD`): the left key wins when both are held. -/
structure Keys where
  left : Bool
  right : Bool
  deriving DecidableEq, Repr

/-- Shared angle computation of `isInNoGoZone` and `calculateTargetSpeed`
(`src/utils/physics.ts` lines 8–10 and 22–26): absolute angle of attack
measured from "directly into the wind", converted to degrees. -/
def angleFromIntoWindDeg (heading windDirection : ℚ) : ℚ :=
  let angleOfAttack := |normalizeAngle (heading - windDirection)|
  let angleFromIntoWind := 1 - angleOfAttack
  angleFromIntoWind * 180

/-- `src/utils/physics.ts` `isInNoGoZone`. -/
def isInNoGoZone (heading windDirection : ℚ) : Bool :=
  decide (|angleFromIntoWindDeg heading windDirection| < NO_GO_ZONE_DEG)

/-- `src/utils/physics.ts` `calculateTargetSpeed`: the two-segment polar
performance curve times `MAX_BOAT_SPEED`.  Note that the function never
reads `wind.speed`. -/
def calculateTargetSpeed (heading : ℚ) (wind : WindState) : ℚ :=
  let angleDeg := angleFromIntoWindDeg heading wind.direction
  if |angleDeg| < NO_GO_ZONE_DEG then 0
  else
    let performance :=
      if 90 ≤ |angleDeg| then
        let t := (|angleDeg| - 90) / 90
        1 - t * (3/10)
      else
        let t := (|angleDeg| - NO_GO_ZONE_DEG) / (90 - NO_GO_ZONE_DEG)
        3/10 + t * (7/10)
    performance * MAX_BOAT_SPEED

/-- The formula the specification states for `calculateTargetSpeed`.
Modelled from the spec: "Final speed = performance × max-speed-constant ×
wind-strength-factor, where wind-strength-factor =
clamp(windSpeed / baseWindSpeed, 0.6, 2.2)", with the same two-segment
performance curve.  Kept separate so it can be compared with the function
actually implemented by the source. -/
def specCalculateTargetSpeed (heading : ℚ) (wind : WindState) : ℚ :=
  calculateTargetSpeed heading wind * clamp (wind.speed / WIND_SPEED) (6/10) (22/10)

/-- `src/utils/physics.ts` `calculateSailTrim` (visual boom angle); `Math.sin`
is the oracle `sinF`. -/
def calculateSailTrim (sinF : ℚ → ℚ) (heading windDirection : ℚ) : ℚ :=
  let relAngle := normalizeAngle (heading - windDirection + 1)
  let absAngle := |relAngle|
  let boomMag := absAngle * 85 / 180
  let cross := -(sinF heading)
  boomMag * (if 0 < cross then -1 else 1)

/-! ### Boat kinematics step (App component `update`, steering/physics/move) -/

/-- Steering (step 1 of `update`): the new heading, written through
`normalizeAngle`.  Turn effectiveness is `min 1 (speed/2)` floored at `0.1`
unless `turnMultiplier > 1`. -/
def kinHeading (keys : Keys) (u : Upgrades) (b : BoatState) : ℚ :=
  let effectiveTurnRate := TURN_RATE * u.turnMultiplier
  let turn := if keys.left then -effectiveTurnRate
    else if keys.right then effectiveTurnRate else 0
  let speedRatio := min 1 (b.speed / 2)
  let turnEffectiveness := if 1 < u.turnMultiplier then 1 else max (1/10) speedRatio
  normalizeAngle (b.heading + turn * turnEffectiveness)

/-- The rudder angle written by the steering step (visual only). -/
def kinRudder (keys : Keys) : ℚ :=
  if keys.left then -(1/2) else if keys.right then 1/2 else 0

/-- Speed update (step 2 of `update`) before the non-negativity clamp:
without sail the speed decays by `0.95`; with sail it accelerates toward /
decays from `calculateTargetSpeed × speedMultiplier`, with an extra `0.98`
decay when the target is exactly `0`. -/
def kinSpeedPre (u : Upgrades) (w : WindState) (heading : ℚ) (b : BoatState) : ℚ :=
  if u.hasSail then
    let targetSpeed := calculateTargetSpeed heading w * u.speedMultiplier
    let effectiveAcceleration := ACCELERATION * u.speedMultiplier
    let s1 := if b.speed < targetSpeed then b.speed + effectiveAcceleration
      else b.speed - DRAG
    if targetSpeed = 0 then s1 * (98/100) else s1
  else
    b.speed * (95/100)

/-- Drift vector of one tick (step 2 of `update`): without sail a pure
downwind drift `wind.speed × 0.02`; with sail the leeway drift
`wind.speed × 0.010 × windFactor × (1 − efficiency)` plus, inside the
no-go zone, the irons drift `wind.speed × 0.020 × windFactor`, all along
the wind direction. -/
def kinDrift (cosF sinF : ℚ → ℚ) (u : Upgrades) (w : WindState) (heading : ℚ) : ℚ × ℚ :=
  if u.hasSail then
    let targetSpeed := calculateTargetSpeed heading w * u.speedMultiplier
    let windFactorRaw := w.speed / WIND_SPEED
    let windFactor := max (8/10) (min (22/10) windFactorRaw)
    let polarMax := MAX_BOAT_SPEED * windFactor
    let efficiency := if 0 < polarMax then max 0 (min 1 (targetSpeed / polarMax)) else 0
    let leewayMag := w.speed * (10/1000) * windFactor * (1 - efficiency)
    let base := (cosF w.direction * leewayMag, sinF w.direction * leewayMag)
    if isInNoGoZone heading w.direction then
      let ironsDrift := w.speed * (20/1000) * windFactor
      (base.1 + cosF w.direction * ironsDrift, base.2 + sinF w.direction * ironsDrift)
    else base
  else
    (cosF w.direction * w.speed * (2/100), sinF w.direction * w.speed * (2/100))

/-- One full kinematics step of the App component's `update` (steering,
physics/speed, move, sail trim).  The forward component is applied only when
sailing (`forwardSpeed = speed` if `hasSail`, else `0`); the drift component
is added unconditionally. -/
def kinematicsStep (cosF sinF : ℚ → ℚ) (keys : Keys) (u : Upgrades) (w : WindState)
    (b : BoatState) : BoatState :=
  let heading := kinHeading keys u b
  let speed := max 0 (kinSpeedPre u w heading b)
  let drift := kinDrift cosF sinF u w heading
  let forwardSpeed := if u.hasSail then speed else 0
  { position := ⟨b.position.x + cosF heading * forwardSpeed + drift.1,
                 b.position.y + sinF heading * forwardSpeed + drift.2⟩
    heading := heading
    speed := speed
    rudderAngle := kinRudder keys
    sailAngle := if u.hasSail then calculateSailTrim sinF heading w.direction else 0 }

/-! ### Collision & objective resolver and run/level state -/

/-- The single outcome of one resolver tick. -/
inductive Outcome where
  | goal
  | rockHit
  | wallHit
  | noEvent
  deriving DecidableEq, Repr

/-- Whether an outcome is a collision (wall or rock). -/
def Outcome.isHit : Outcome → Bool
  | Outcome.rockHit => true
  | Outcome.wallHit => true
  | _ => false

/-- Rock collision check of the resolver: boat center within
`rock.radius + 25` (the boat safety radius) of some rock center. -/
def rockHitAt (rocks : List RockState) (x y : ℚ) : Bool :=
  rocks.any fun rock =>
    let dx := x - rock.position.x
    let dy := y - rock.position.y
    let minDist := rock.radius + 25
    decide (dx * dx + dy * dy < minDist * minDist)

/-- Outcome classification of the resolver (`buffer = 20`): the goal check
(`x < buffer`, the left boundary) comes first; the remaining boundaries are
wall hits; rocks are checked only when the goal was not reached.  When both
a wall and a rock are touched the source reports the rock message, so the
rock case is ordered before the wall case here (the applied state change is
identical for both). -/
def resolveOutcome (w h : ℚ) (rocks : List RockState) (pos : Vector2D) : Outcome :=
  if pos.x < 20 then Outcome.goal
  else if rockHitAt rocks pos.x pos.y then Outcome.rockHit
  else if pos.x > w - 20 ∨ pos.y < 20 ∨ pos.y > h - 20 then Outcome.wallHit
  else Outcome.noEvent

/-- The boat state written on every goal/collision reset: field center,
heading `normalizeAngle(windDirection + π)` (facing upwind), speed `0`. -/
def resetBoat (w h windDirection : ℚ) : BoatState :=
  { position := ⟨w / 2, h / 2⟩
    heading := normalizeAngle (windDirection + 1)
    speed := 0
    rudderAngle := 0
    sailAngle := 0 }

/-- Full game state carried across ticks by the App component. -/
structure GameState where
  level : ℤ
  lives : ℤ
  highscoreLevel : ℤ
  windDirection : ℚ
  upgrades : Upgrades
  boat : BoatState
  rocks : List RockState
  rockCount : ℕ

/-- Collision branch of the resolver: `nextLives = lives - 1`;
`setLives(max 0 nextLives)`; when `nextLives ≤ 0` the same tick performs the
game-over reset `level := 1, lives := 5`.  The boat is reset either way. -/
def applyHit (w h : ℚ) (st : GameState) : GameState :=
  let nextLives := st.lives - 1
  if nextLives ≤ 0 then
    { st with level := 1, lives := 5, boat := resetBoat w h st.windDirection }
  else
    { st with lives := max 0 nextLives, boat := resetBoat w h st.windDirection }

/-- State change applied for one classified outcome: the goal branch
increments the level and folds it into the highscore; the two collision
branches run `applyHit`; otherwise the state is unchanged. -/
def applyOutcome (w h : ℚ) (o : Outcome) (st : GameState) : GameState :=
  match o with
  | Outcome.goal =>
    let next := st.level + 1
    { st with level := next
              highscoreLevel := max st.highscoreLevel next
              boat := resetBoat w h st.windDirection }
  | Outcome.rockHit => applyHit w h st
  | Outcome.wallHit => applyHit w h st
  | Outcome.noEvent => st

/-- One resolver tick applied to the game state (the second `setBoat` of
`update` together with the level/lives/highscore transitions it triggers).
The wind re-roll caused by a level change is an asynchronous effect outside
this function. -/
def resolveTick (w h : ℚ) (st : GameState) : GameState :=
  applyOutcome w h (resolveOutcome w h st.rocks st.boat.position) st

/-- `pickWindDirectionForLevel`: a direction in `[-maxAngle, maxAngle]` with
`maxAngle = min(π/4, π/18 + (lvl−1)·π/36)` (units of π), from one random
sample `rand ∈ [0, 1)`. -/
def pickWindDirectionForLevel (rand : ℚ) (lvl : ℤ) : ℚ :=
  let maxAngle := min (1/4) ((1/18) + ((lvl : ℚ) - 1) * (1/36))
  (rand * 2 - 1) * maxAngle

/-! ### Rock field generator -/

/-- The options record taken by `generateRandomRocks`. -/
structure RockOpts where
  count : ℕ
  width : ℚ
  height : ℚ
  targetZoneWidth : ℚ
  margin : ℚ
  startX : ℚ
  startY : ℚ
  startSafeRadius : ℚ
  minLeftCount : ℕ
  leftMaxX : ℚ

/-- Attempt budget of both sampling passes. -/
def maxAttempts : ℕ := 3000

/-- Minimum gap kept between rock circles. -/
def minGap : ℚ := 22

/-- The `tryAddRock` closure: reject a candidate that is too close to the
start point or to any already placed rock, otherwise append it (with
coordinates clamped into the playable bounds).  The source's boolean return
plus mutation becomes an `Option` of the extended list. -/
def tryAddRock (opts : RockOpts) (rocks : List RockState) (x y radius : ℚ) :
    Option (List RockState) :=
  let minX := opts.targetZoneWidth + opts.margin
  let maxX := opts.width - opts.margin
  let minY := opts.margin
  let maxY := opts.height - opts.margin
  let dxs := x - opts.startX
  let dys := y - opts.startY
  if dxs * dxs + dys * dys <
      (opts.startSafeRadius + radius) * (opts.startSafeRadius + radius) then none
  else if rocks.any (fun r =>
      let dx := x - r.position.x
      let dy := y - r.position.y
      let minDist := radius + r.radius + minGap
      decide (dx * dx + dy * dy < minDist * minDist)) then none
  else some (rocks ++ [{ position := ⟨clamp x minX maxX, clamp y minY maxY⟩,
                         radius := radius }])

/-- First pass of `generateRandomRocks`: sample inside the left sub-region
(`x ∈ [minX, leftUpperX)`, with `minX = targetZoneWidth + margin`) until
`min(minLeftCount, count)` rocks are placed or the attempt budget runs out.
`fuel` is the remaining attempt budget and `i` indexes the sample stream;
the source's local `radius`/`x`/`y` bindings are inlined: `radius = 32 +
rand·28`, `x = minX + rand·(leftUpperX − minX)`,
`y = minY + rand·max 1 (maxY − minY)`. -/
def leftPass (rnd : ℕ → ℚ × ℚ × ℚ) (opts : RockOpts) (leftUpperX : ℚ) :
    ℕ → ℕ → ℕ → List RockState → List RockState
  | 0, _, _, rocks => rocks
  | fuel + 1, i, leftPlaced, rocks =>
    if leftPlaced < min opts.minLeftCount opts.count then
      match tryAddRock opts rocks
        (opts.targetZoneWidth + opts.margin +
          (rnd i).2.1 * (leftUpperX - (opts.targetZoneWidth + opts.margin)))
        (opts.margin + (rnd i).2.2 * max 1 (opts.height - opts.margin - opts.margin))
        (32 + (rnd i).1 * 28) with
      | some rocks2 => leftPass rnd opts leftUpperX fuel (i + 1) (leftPlaced + 1) rocks2
      | none => leftPass rnd opts leftUpperX fuel (i + 1) leftPlaced rocks
    else rocks

/-- Second pass of `generateRandomRocks`: sample anywhere in the allowed
region (`x = minX + rand·max 1 (maxX − minX)`, `y` as in the first pass)
until `count` rocks exist or the attempt budget runs out. -/
def mainPass (rnd : ℕ → ℚ × ℚ × ℚ) (opts : RockOpts) :
    ℕ → ℕ → List RockState → List RockState
  | 0, _, rocks => rocks
  | fuel + 1, i, rocks =>
    if rocks.length < opts.count then
      match tryAddRock opts rocks
        (opts.targetZoneWidth + opts.margin +
          (rnd i).2.1 *
            max 1 (opts.width - opts.margin - (opts.targetZoneWidth + opts.margin)))
        (opts.margin + (rnd i).2.2 * max 1 (opts.height - opts.margin - opts.margin))
        (32 + (rnd i).1 * 28) with
      | some rocks2 => mainPass rnd opts fuel (i + 1) rocks2
      | none => mainPass rnd opts fuel (i + 1) rocks
    else rocks

/-- `generateRandomRocks`: the left-region pass (guarded by
`leftUpperX > minX`, with `leftUpperX = max (minX+1) (min leftMaxX maxX)`)
followed by the general pass.  The second pass reads the sample stream from
index `maxAttempts` onward (each attempt of either pass consumes one stream
triple). -/
def generateRandomRocks (rnd : ℕ → ℚ × ℚ × ℚ) (opts : RockOpts) : List RockState :=
  mainPass rnd opts maxAttempts maxAttempts
    (if opts.targetZoneWidth + opts.margin <
        max (opts.targetZoneWidth + opts.margin + 1)
          (min opts.leftMaxX (opts.width - opts.margin)) then
      leftPass rnd opts
        (max (opts.targetZoneWidth + opts.margin + 1)
          (min opts.leftMaxX (opts.width - opts.margin)))
        maxAttempts 0 0 []
    else [])

/-- A degenerate sample stream: `Math.random()` returning `0` forever
(a legal value, since `Math.random()` ranges over `[0, 1)`). -/
def rnd0 : ℕ → ℚ × ℚ × ℚ := fun _ => (0, 0, 0)

/-- The generator configuration the App uses on a 1000×800 window with
`count = minLeftCount = 2`. -/
def opts0 : RockOpts :=
  { count := 2, width := 1000, height := 800, targetZoneWidth := 120, margin := 40
    startX := 500, startY := 400, startSafeRadius := 220, minLeftCount := 2
    leftMaxX := 380 }

/-- The single rock that `generateRandomRocks rnd0 opts0` produces: every
attempt samples the same corner point `(160, 40)` with radius `32`, so only
the first attempt succeeds. -/
def rock0 : RockState := ⟨⟨160, 40⟩, 32⟩

/-- `handleResetRun`: reset run progress (level 1, lives 5), re-roll the wind
for level 1, reset the boat facing upwind, and regenerate the rocks with one
more rock than the previous generation; upgrades and highscore are left
untouched. -/
def handleResetRun (w h windRand : ℚ) (rnd : ℕ → ℚ × ℚ × ℚ) (st : GameState) : GameState :=
  let nextWindDir := pickWindDirectionForLevel windRand 1
  let nextCount := st.rockCount + 1
  { st with
    level := 1
    lives := 5
    windDirection := nextWindDir
    boat := { position := ⟨w / 2, h / 2⟩
              heading := normalizeAngle (nextWindDir + 1)
              speed := 0
              rudderAngle := 0
              sailAngle := 0 }
    rockCount := nextCount
    rocks := generateRandomRocks rnd
      { count := nextCount
        width := w
        height := h
        targetZoneWidth := 120
        margin := 40
        startX := w / 2
        startY := h / 2
        startSafeRadius := 220
        minLeftCount := 2
        leftMaxX := w * (38/100) } }

/-! ### Separation and clearance predicates for the rock generator -/

/-- Two rock circles are separated by at least `minGap` (stated on squared
center distance, which is what the source compares). -/
def rockSep (a b : RockState) : Prop :=
  (a.position.x - b.position.x) * (a.position.x - b.position.x) +
    (a.position.y - b.position.y) * (a.position.y - b.position.y) ≥
  (a.radius + b.radius + minGap) * (a.radius + b.radius + minGap)

/-- A rock circle clears the start-safety circle (squared form). -/
def clearsStart (opts : RockOpts) (r : RockState) : Prop :=
  (r.position.x - opts.startX) * (r.position.x - opts.startX) +
    (r.position.y - opts.startY) * (r.position.y - opts.startY) ≥
  (opts.startSafeRadius + r.radius) * (opts.startSafeRadius + r.radius)

/-- The generator invariant: pairwise separation and start clearance. -/
def rocksOK (opts : RockOpts) (rocks : List RockState) : Prop :=
  rocks.Pairwise rockSep ∧ ∀ r ∈ rocks, clearsStart opts r

/-! ## Lemmas about `normalizeAngle` -/

theorem ratTrunc_le_of_nonneg {q : ℚ} (h : 0 ≤ q) : (ratTrunc q : ℚ) ≤ q := by
  rw [ratTrunc, if_pos h]
  exact Int.floor_le q

theorem lt_ratTrunc_add_one_of_nonneg {q : ℚ} (h : 0 ≤ q) : q < (ratTrunc q : ℚ) + 1 := by
  rw [ratTrunc, if_pos h]
  exact_mod_cast Int.lt_floor_add_one q

theorem le_ratTrunc_of_neg {q : ℚ} (h : ¬ 0 ≤ q) : q ≤ (ratTrunc q : ℚ) := by
  rw [ratTrunc, if_neg h]
  exact Int.le_ceil q

theorem ratTrunc_lt_add_one_of_neg {q : ℚ} (h : ¬ 0 ≤ q) : (ratTrunc q : ℚ) < q + 1 := by
  rw [ratTrunc, if_neg h]
  exact_mod_cast Int.ceil_lt_add_one q

theorem jsMod_two_bounds (q : ℚ) : -2 < jsMod q 2 ∧ jsMod q 2 < 2 := by
  rw [jsMod]
  by_cases h : 0 ≤ q / 2
  · have h1 := ratTrunc_le_of_nonneg h
    have h2 := lt_ratTrunc_add_one_of_nonneg h
    constructor <;> nlinarith
  · have h1 := le_ratTrunc_of_neg h
    have h2 := ratTrunc_lt_add_one_of_neg h
    constructor <;> nlinarith

theorem normalizeAngle_mem (q : ℚ) :
    -1 ≤ normalizeAngle q ∧ normalizeAngle q ≤ 1 := by
  obtain ⟨hl, hr⟩ := jsMod_two_bounds q
  rw [normalizeAngle]
  split_ifs with h1 h2 h3 <;> constructor <;> simp only at * <;> linarith

theorem normalizeAngle_mod_two (q : ℚ) :
    ∃ k : ℤ, q - normalizeAngle q = 2 * k := by
  rw [normalizeAngle, jsMod]
  split_ifs with h1 h2 h3
  · exact absurd (by linarith : q - 2 * ((ratTrunc (q / 2) : ℤ) : ℚ) < 1) (not_lt.mpr h1.le)
  · exact ⟨ratTrunc (q / 2) + 1, by push_cast; ring⟩
  · exact ⟨ratTrunc (q / 2) - 1, by push_cast; ring⟩
  · exact ⟨ratTrunc (q / 2), by ring⟩

theorem ratTrunc_eq_zero {q : ℚ} (h1 : -1 < q) (h2 : q < 1) : ratTrunc q = 0 := by
  rw [ratTrunc]
  split_ifs with h
  · rw [Int.floor_eq_zero_iff]
    exact ⟨h, h2⟩
  · rw [Int.ceil_eq_zero_iff]
    exact ⟨h1, le_of_not_le h⟩

/-- On `[-1, 1]` (that is `[-π, π]`), `normalizeAngle` is the identity. -/
theorem normalizeAngle_eq_self {q : ℚ} (h1 : -1 ≤ q) (h2 : q ≤ 1) :
    normalizeAngle q = q := by
  rw [normalizeAngle, jsMod, ratTrunc_eq_zero (by linarith) (by linarith)]
  push_cast
  rw [if_neg (by linarith : ¬ q - 2 * 0 > 1), if_neg (by linarith : ¬ q - 2 * 0 < -1)]
  ring

/-! ## Lemmas about the polar model -/

theorem angleFromIntoWindDeg_nonneg (heading d : ℚ) :
    0 ≤ angleFromIntoWindDeg heading d := by
  obtain ⟨h1, h2⟩ := normalizeAngle_mem (heading - d)
  rw [angleFromIntoWindDeg]
  have : |normalizeAngle (heading - d)| ≤ 1 := abs_le.mpr ⟨h1, h2⟩
  nlinarith

theorem angleFromIntoWindDeg_le (heading d : ℚ) :
    angleFromIntoWindDeg heading d ≤ 180 := by
  have : 0 ≤ |normalizeAngle (heading - d)| := abs_nonneg _
  rw [angleFromIntoWindDeg]
  nlinarith

theorem abs_angleFromIntoWindDeg (heading d : ℚ) :
    |angleFromIntoWindDeg heading d| = angleFromIntoWindDeg heading d :=
  abs_of_nonneg (angleFromIntoWindDeg_nonneg heading d)

/-- `calculateTargetSpeed` as a piecewise function of the degrees-from-upwind
angle (which is shared with `isInNoGoZone`). -/
theorem calculateTargetSpeed_eq (heading : ℚ) (wind : WindState) :
    calculateTargetSpeed heading wind =
      if angleFromIntoWindDeg heading wind.direction < 45 then 0
      else if 90 ≤ angleFromIntoWindDeg heading wind.direction then
        (1 - ((angleFromIntoWindDeg heading wind.direction - 90) / 90) * (3/10)) * 5
      else
        (3/10 + ((angleFromIntoWindDeg heading wind.direction - 45) / 45) * (7/10)) * 5 := by
  rw [calculateTargetSpeed]
  simp only [abs_angleFromIntoWindDeg, NO_GO_ZONE_DEG, MAX_BOAT_SPEED]
  norm_num

theorem isInNoGoZone_iff (heading d : ℚ) :
    isInNoGoZone heading d = true ↔ angleFromIntoWindDeg heading d < 45 := by
  rw [isInNoGoZone, abs_angleFromIntoWindDeg, NO_GO_ZONE_DEG]
  simp

/-- When the raw angle difference is already in `[-π, π]`, the
degrees-from-upwind angle is `(1 − |heading − d|)·180`. -/
theorem angleFromIntoWindDeg_of_small {heading d : ℚ}
    (h1 : -1 ≤ heading - d) (h2 : heading - d ≤ 1) :
    angleFromIntoWindDeg heading d = (1 - |heading - d|) * 180 := by
  rw [angleFromIntoWindDeg, normalizeAngle_eq_self h1 h2]

theorem calculateTargetSpeed_pos (heading : ℚ) (wind : WindState)
    (h : 45 ≤ angleFromIntoWindDeg heading wind.direction) :
    0 < calculateTargetSpeed heading wind := by
  have hA2 := angleFromIntoWindDeg_le heading wind.direction
  rw [calculateTargetSpeed_eq, if_neg (not_lt.mpr h)]
  split_ifs with h90
  · nlinarith
  · nlinarith

theorem calculateTargetSpeed_le_max (heading : ℚ) (wind : WindState) :
    calculateTargetSpeed heading wind ≤ 5 := by
  have hA1 := angleFromIntoWindDeg_nonneg heading wind.direction
  rw [calculateTargetSpeed_eq]
  split_ifs with h45 h90
  · norm_num
  · nlinarith
  · nlinarith

/-- Claim C4: `isInNoGoZone` and the zero branch of `calculateTargetSpeed`
agree for every heading/wind pair: the boolean is true exactly when the
target speed is `0` (for any wind speed), and off the zone the target speed
is strictly positive. -/
theorem noGoZone_iff_zeroSpeed (heading : ℚ) (wind : WindState) :
    (isInNoGoZone heading wind.direction = true ↔ calculateTargetSpeed heading wind = 0) ∧
    (isInNoGoZone heading wind.direction = false → 0 < calculateTargetSpeed heading wind) := by
  have hpos := calculateTargetSpeed_pos heading wind
  constructor
  · constructor
    · intro h
      rw [isInNoGoZone_iff] at h
      rw [calculateTargetSpeed_eq, if_pos h]
    · intro h
      by_cases hin : angleFromIntoWindDeg heading wind.direction < 45
      · exact (isInNoGoZone_iff heading wind.direction).mpr hin
      · exact absurd h.symm (ne_of_lt (hpos (not_lt.mp hin)))
  · intro h
    refine hpos (not_lt.mp fun hc => ?_)
    rw [(isInNoGoZone_iff heading wind.direction).mpr hc] at h
    exact Bool.noConfusion h

/-- Witness for C4 at a concrete input: heading dead downwind of a wind
blowing east at speed 15 is outside the no-go zone, so the target speed is
strictly positive there. -/
theorem noGoZone_iff_zeroSpeed_witness :
    0 < calculateTargetSpeed 0 { direction := 0, speed := 15 } := by
  have hA : angleFromIntoWindDeg 0 (0 : ℚ) = 180 := by
    rw [angleFromIntoWindDeg_of_small (by norm_num) (by norm_num)]
    norm_num [abs_of_nonneg]
  refine (noGoZone_iff_zeroSpeed 0 { direction := 0, speed := 15 }).2 ?_
  simp only [isInNoGoZone, hA, NO_GO_ZONE_DEG]
  norm_num

/-- Claim C1 counterexample: `calculateTargetSpeed` does **not** apply a
wind-strength factor.  At heading 0 under an east wind, the result is the
same for wind speed 100 as for the base wind speed 15, and it differs from
the spec's formula `performance × max-speed × clamp(speed/base, 0.6, 2.2)`
at wind speed 100. -/
theorem calculateTargetSpeed_windFactor_cex :
    calculateTargetSpeed 0 { direction := 0, speed := 100 } =
      calculateTargetSpeed 0 { direction := 0, speed := 15 } ∧
    calculateTargetSpeed 0 { direction := 0, speed := 100 } ≠
      specCalculateTargetSpeed 0 { direction := 0, speed := 100 } := by
  have hA : angleFromIntoWindDeg 0 (0 : ℚ) = 180 := by
    rw [angleFromIntoWindDeg_of_small (by norm_num) (by norm_num)]
    norm_num [abs_of_nonneg]
  have hval : calculateTargetSpeed 0 { direction := 0, speed := 100 } = 7/2 := by
    rw [calculateTargetSpeed_eq]
    simp only [hA]
    norm_num
  have hclamp : clamp ((100 : ℚ) / WIND_SPEED) (6/10) (22/10) = 22/10 := by
    rw [clamp, WIND_SPEED]
    rw [min_eq_left (by norm_num), max_eq_right (by norm_num)]
  constructor
  · rfl
  · rw [specCalculateTargetSpeed]
    simp only [hclamp, hval]
    norm_num

/-- Claim C1 as amended: `calculateTargetSpeed` is the polar performance
curve times `MAX_BOAT_SPEED` alone — its value never depends on
`wind.speed` (the clamped wind factor exists only in the drift computation
of the kinematics step, with clamp bounds 0.8–2.2). -/
theorem calculateTargetSpeed_windSpeed_independent (heading : ℚ) (w : WindState) (s : ℚ) :
    calculateTargetSpeed heading w = calculateTargetSpeed heading ⟨w.direction, s⟩ := rfl

/-- Claim C5: with the wind fixed, the target speed is non-decreasing in the
degrees-from-upwind angle on `[45°, 90°]`, non-increasing on `[90°, 180°]`,
and maximal at `90°` (beam reach). -/
theorem targetSpeed_monotone (w : WindState) :
    (∀ h₁ h₂ : ℚ, 45 ≤ angleFromIntoWindDeg h₁ w.direction →
      angleFromIntoWindDeg h₁ w.direction ≤ angleFromIntoWindDeg h₂ w.direction →
      angleFromIntoWindDeg h₂ w.direction ≤ 90 →
      calculateTargetSpeed h₁ w ≤ calculateTargetSpeed h₂ w) ∧
    (∀ h₁ h₂ : ℚ, 90 ≤ angleFromIntoWindDeg h₁ w.direction →
      angleFromIntoWindDeg h₁ w.direction ≤ angleFromIntoWindDeg h₂ w.direction →
      angleFromIntoWindDeg h₂ w.direction ≤ 180 →
      calculateTargetSpeed h₂ w ≤ calculateTargetSpeed h₁ w) ∧
    (∀ hb hm : ℚ, angleFromIntoWindDeg hm w.direction = 90 →
      calculateTargetSpeed hb w ≤ calculateTargetSpeed hm w) := by
  have hmax : ∀ hm : ℚ, angleFromIntoWindDeg hm w.direction = 90 →
      calculateTargetSpeed hm w = 5 := by
    intro hm h90
    rw [calculateTargetSpeed_eq, h90]
    norm_num
  refine ⟨?_, ?_, ?_⟩
  · intro h₁ h₂ ha hb hc
    rw [calculateTargetSpeed_eq, calculateTargetSpeed_eq]
    rw [if_neg (not_lt.mpr ha), if_neg (not_lt.mpr (by linarith))]
    split_ifs with h1 h2 h2 <;> nlinarith
  · intro h₁ h₂ ha hb hc
    rw [calculateTargetSpeed_eq, calculateTargetSpeed_eq]
    rw [if_neg (not_lt.mpr (by linarith)), if_neg (not_lt.mpr (by linarith))]
    rw [if_pos (by linarith), if_pos (by linarith)]
    nlinarith
  · intro hb hm h90
    rw [hmax hm h90]
    exact calculateTargetSpeed_le_max hb w

/-- Witness for C5 on concrete headings under an east wind: 45° ≤ 90° on the
rising segment (headings 3π/4 and π/2), 135° ≤ 180° on the falling segment
(headings π/4 and 0), and the beam reach dominating a downwind heading. -/
theorem targetSpeed_monotone_witness :
    calculateTargetSpeed (3/4) { direction := 0, speed := 15 } ≤
      calculateTargetSpeed (1/2) { direction := 0, speed := 15 } ∧
    calculateTargetSpeed 0 { direction := 0, speed := 15 } ≤
      calculateTargetSpeed (1/4) { direction := 0, speed := 15 } ∧
    calculateTargetSpeed 0 { direction := 0, speed := 15 } ≤
      calculateTargetSpeed (1/2) { direction := 0, speed := 15 } := by
  have hA34 : angleFromIntoWindDeg (3/4 : ℚ) 0 = 45 := by
    rw [angleFromIntoWindDeg_of_small (by norm_num) (by norm_num)]
    norm_num [abs_of_nonneg]
  have hA12 : angleFromIntoWindDeg (1/2 : ℚ) 0 = 90 := by
    rw [angleFromIntoWindDeg_of_small (by norm_num) (by norm_num)]
    norm_num [abs_of_nonneg]
  have hA14 : angleFromIntoWindDeg (1/4 : ℚ) 0 = 135 := by
    rw [angleFromIntoWindDeg_of_small (by norm_num) (by norm_num)]
    norm_num [abs_of_nonneg]
  have hA0 : angleFromIntoWindDeg (0 : ℚ) 0 = 180 := by
    rw [angleFromIntoWindDeg_of_small (by norm_num) (by norm_num)]
    norm_num [abs_of_nonneg]
  have t := targetSpeed_monotone { direction := 0, speed := 15 }
  have hd : ({ direction := 0, speed := 15 } : WindState).direction = (0 : ℚ) := rfl
  rw [hd] at t
  exact ⟨t.1 (3/4) (1/2) (by rw [hA34]) (by rw [hA34, hA12]; norm_num) (by rw [hA12]),
         t.2.1 (1/4) 0 (by rw [hA14]; norm_num) (by rw [hA14, hA0]; norm_num)
           (by rw [hA0]),
         t.2.2 0 (1/2) hA12⟩

/-! ## Kinematics claims -/

/-- Claim C3: the forward displacement of one kinematics step is
`(cos heading, sin heading) × forwardSpeed` with `forwardSpeed = speed` when
sailing and `0` without a sail, on top of the drift vector; in particular a
boat without a sail moves only by the downwind drift, never along its own
heading. -/
theorem kinematics_forward_displacement (cosF sinF : ℚ → ℚ) (keys : Keys)
    (u : Upgrades) (w : WindState) (b : BoatState) :
    ((kinematicsStep cosF sinF keys u w b).position.x =
        b.position.x + cosF (kinHeading keys u b) *
          (if u.hasSail then (kinematicsStep cosF sinF keys u w b).speed else 0) +
          (kinDrift cosF sinF u w (kinHeading keys u b)).1 ∧
      (kinematicsStep cosF sinF keys u w b).position.y =
        b.position.y + sinF (kinHeading keys u b) *
          (if u.hasSail then (kinematicsStep cosF sinF keys u w b).speed else 0) +
          (kinDrift cosF sinF u w (kinHeading keys u b)).2) ∧
    (u.hasSail = false →
      (kinematicsStep cosF sinF keys u w b).position.x =
        b.position.x + cosF w.direction * w.speed * (2/100) ∧
      (kinematicsStep cosF sinF keys u w b).position.y =
        b.position.y + sinF w.direction * w.speed * (2/100)) := by
  refine ⟨⟨rfl, rfl⟩, fun hs => ?_⟩
  constructor <;> simp [kinematicsStep, kinDrift, hs]

/-- Witness for C3: a concrete sail-less boat with residual speed moves by
the drift vector alone. -/
theorem kinematics_forward_displacement_witness :
    (kinematicsStep (fun _ => 1) (fun _ => 0) ⟨false, false⟩
        ⟨false, 1, 1, false⟩ ⟨0, 15⟩
        ⟨⟨500, 400⟩, 1/2, 3, 0, 0⟩).position.x = 500 + 1 * 15 * (2/100) ∧
    (kinematicsStep (fun _ => 1) (fun _ => 0) ⟨false, false⟩
        ⟨false, 1, 1, false⟩ ⟨0, 15⟩
        ⟨⟨500, 400⟩, 1/2, 3, 0, 0⟩).position.y = 400 + 0 * 15 * (2/100) :=
  (kinematics_forward_displacement (fun _ => 1) (fun _ => 0) ⟨false, false⟩
    ⟨false, 1, 1, false⟩ ⟨0, 15⟩ ⟨⟨500, 400⟩, 1/2, 3, 0, 0⟩).2 rfl

/-! ## Resolver and run-state claims -/

/-- Claim C6: the resolver applies a single outcome per tick and the goal
check takes priority: whenever the boat is within the left-boundary buffer
(`x < 20`) the tick resolves as a goal — the level increments, the lives are
untouched (no wall or rock penalty) and the boat is reset — regardless of
the other boundaries and of any rock overlap. -/
theorem resolver_goal_priority (w h : ℚ) (st : GameState)
    (hx : st.boat.position.x < 20) :
    resolveOutcome w h st.rocks st.boat.position = Outcome.goal ∧
    (resolveTick w h st).lives = st.lives ∧
    (resolveTick w h st).level = st.level + 1 ∧
    (resolveTick w h st).boat = resetBoat w h st.windDirection := by
  have hout : resolveOutcome w h st.rocks st.boat.position = Outcome.goal := by
    rw [resolveOutcome, if_pos hx]
  rw [resolveTick, hout]
  exact ⟨rfl, rfl, rfl, rfl⟩

/-- Witness for C6, matching the spec scenario: on a 1000×800 field a boat at
`(10, 10)` is inside the left buffer *and* the top buffer *and* inside a
rock's collision radius, yet the tick resolves as a goal with lives
untouched. -/
theorem resolver_goal_priority_witness :
    resolveOutcome 1000 800
        (⟨3, 3, 3, 0, ⟨true, 1, 1, false⟩, ⟨⟨10, 10⟩, 0, 0, 0, 0⟩,
          [⟨⟨10, 10⟩, 40⟩], 6⟩ : GameState).rocks
        (⟨3, 3, 3, 0, ⟨true, 1, 1, false⟩, ⟨⟨10, 10⟩, 0, 0, 0, 0⟩,
          [⟨⟨10, 10⟩, 40⟩], 6⟩ : GameState).boat.position
      = Outcome.goal ∧
    (resolveTick 1000 800
        ⟨3, 3, 3, 0, ⟨true, 1, 1, false⟩, ⟨⟨10, 10⟩, 0, 0, 0, 0⟩,
          [⟨⟨10, 10⟩, 40⟩], 6⟩).lives = 3 ∧
    (resolveTick 1000 800
        ⟨3, 3, 3, 0, ⟨true, 1, 1, false⟩, ⟨⟨10, 10⟩, 0, 0, 0, 0⟩,
          [⟨⟨10, 10⟩, 40⟩], 6⟩).level = 3 + 1 ∧
    (resolveTick 1000 800
        ⟨3, 3, 3, 0, ⟨true, 1, 1, false⟩, ⟨⟨10, 10⟩, 0, 0, 0, 0⟩,
          [⟨⟨10, 10⟩, 40⟩], 6⟩).boat = resetBoat 1000 800 0 :=
  resolver_goal_priority 1000 800
    ⟨3, 3, 3, 0, ⟨true, 1, 1, false⟩, ⟨⟨10, 10⟩, 0, 0, 0, 0⟩, [⟨⟨10, 10⟩, 40⟩], 6⟩
    (by norm_num)

/-- Claim C7: starting from lives in `[0, 5]`, lives stay in `[0, 5]` after a
resolver tick and after a manual reset; a collision with at least 2 lives
decrements lives by exactly one (level untouched); a collision that would
bring lives to 0 resets level to 1 and lives to 5 in the same tick, leaving
upgrades and the highscore level unchanged. -/
theorem lives_invariant (w h : ℚ) (st : GameState)
    (h0 : 0 ≤ st.lives) (h5 : st.lives ≤ 5) :
    (0 ≤ (resolveTick w h st).lives ∧ (resolveTick w h st).lives ≤ 5) ∧
    ((resolveOutcome w h st.rocks st.boat.position).isHit = true →
      2 ≤ st.lives →
      (resolveTick w h st).lives = st.lives - 1 ∧
        (resolveTick w h st).level = st.level) ∧
    ((resolveOutcome w h st.rocks st.boat.position).isHit = true →
      st.lives ≤ 1 →
      (resolveTick w h st).lives = 5 ∧ (resolveTick w h st).level = 1 ∧
        (resolveTick w h st).upgrades = st.upgrades ∧
        (resolveTick w h st).highscoreLevel = st.highscoreLevel) ∧
    (∀ windRand : ℚ, ∀ rnd : ℕ → ℚ × ℚ × ℚ,
      (handleResetRun w h windRand rnd st).lives = 5) := by
  rw [resolveTick]
  rcases resolveOutcome w h st.rocks st.boat.position with _ | _ | _ | _ <;>
    simp only [applyOutcome, Outcome.isHit, applyHit]
  case goal =>
    refine ⟨⟨h0, h5⟩, ?_, ?_, fun _ _ => rfl⟩ <;> intro hfalse <;> cases hfalse
  case noEvent =>
    refine ⟨⟨h0, h5⟩, ?_, ?_, fun _ _ => rfl⟩ <;> intro hfalse <;> cases hfalse
  case rockHit =>
    split_ifs with hle
    · refine ⟨⟨by norm_num, by norm_num⟩, ?_, ?_, fun _ _ => rfl⟩
      · intro _ h2
        exact absurd hle (by omega)
      · intro _ _
        exact ⟨rfl, rfl, rfl, rfl⟩
    · have hmax : max (0 : ℤ) (st.lives - 1) = st.lives - 1 := max_eq_right (by omega)
      refine ⟨⟨?_, ?_⟩, ?_, ?_, fun _ _ => rfl⟩
      · simp only [hmax]; omega
      · simp only [hmax]; omega
      · intro _ _
        exact ⟨by simp only [hmax], rfl⟩
      · intro _ h1
        exact absurd hle (by omega)
  case wallHit =>
    split_ifs with hle
    · refine ⟨⟨by norm_num, by norm_num⟩, ?_, ?_, fun _ _ => rfl⟩
      · intro _ h2
        exact absurd hle (by omega)
      · intro _ _
        exact ⟨rfl, rfl, rfl, rfl⟩
    · have hmax : max (0 : ℤ) (st.lives - 1) = st.lives - 1 := max_eq_right (by omega)
      refine ⟨⟨?_, ?_⟩, ?_, ?_, fun _ _ => rfl⟩
      · simp only [hmax]; omega
      · simp only [hmax]; omega
      · intro _ _
        exact ⟨by simp only [hmax], rfl⟩
      · intro _ h1
        exact absurd hle (by omega)

/-- Witness for C7: a boat on the right wall (a wall hit) with exactly one
life left triggers the game-over reset in the same tick: lives back to 5,
level back to 1, upgrades and highscore untouched. -/
theorem lives_invariant_witness :
    (0 ≤ (resolveTick 1000 800
        ⟨7, 1, 9, 0, ⟨true, 1, 1, false⟩, ⟨⟨995, 400⟩, 0, 0, 0, 0⟩, [], 6⟩).lives ∧
      (resolveTick 1000 800
        ⟨7, 1, 9, 0, ⟨true, 1, 1, false⟩, ⟨⟨995, 400⟩, 0, 0, 0, 0⟩, [], 6⟩).lives ≤ 5) ∧
    ((resolveTick 1000 800
        ⟨7, 1, 9, 0, ⟨true, 1, 1, false⟩, ⟨⟨995, 400⟩, 0, 0, 0, 0⟩, [], 6⟩).lives = 5 ∧
      (resolveTick 1000 800
        ⟨7, 1, 9, 0, ⟨true, 1, 1, false⟩, ⟨⟨995, 400⟩, 0, 0, 0, 0⟩, [], 6⟩).level = 1 ∧
      (resolveTick 1000 800
        ⟨7, 1, 9, 0, ⟨true, 1, 1, false⟩, ⟨⟨995, 400⟩, 0, 0, 0, 0⟩,
          [], 6⟩).upgrades = ⟨true, 1, 1, false⟩ ∧
      (resolveTick 1000 800
        ⟨7, 1, 9, 0, ⟨true, 1, 1, false⟩, ⟨⟨995, 400⟩, 0, 0, 0, 0⟩,
          [], 6⟩).highscoreLevel = 9) := by
  have hro : resolveOutcome 1000 800 [] (⟨995, 400⟩ : Vector2D) = Outcome.wallHit := by
    rw [resolveOutcome]
    rw [if_neg (by norm_num : ¬ ((⟨995, 400⟩ : Vector2D).x < 20))]
    rw [if_neg (by simp [rockHitAt])]
    rw [if_pos (Or.inl (by norm_num : (⟨995, 400⟩ : Vector2D).x > 1000 - 20))]
  have hhit : (resolveOutcome 1000 800 [] (⟨995, 400⟩ : Vector2D)).isHit = true := by
    rw [hro]
    rfl
  have t := lives_invariant 1000 800
    ⟨7, 1, 9, 0, ⟨true, 1, 1, false⟩, ⟨⟨995, 400⟩, 0, 0, 0, 0⟩, [], 6⟩
    (by norm_num) (by norm_num)
  exact ⟨t.1, t.2.2.1 hhit (by norm_num)⟩

/-- Claim C8: the boat speed is non-negative after every kinematics step (it
is clamped with `max 0`), remains non-negative through every resolver tick
(resets write speed `0`), and a manual reset writes speed `0`. -/
theorem speed_nonneg_invariant (cosF sinF : ℚ → ℚ) (keys : Keys) (u : Upgrades)
    (w : WindState) (b : BoatState) (wv hv : ℚ) (st : GameState)
    (hs : 0 ≤ st.boat.speed) :
    0 ≤ (kinematicsStep cosF sinF keys u w b).speed ∧
    0 ≤ (resolveTick wv hv st).boat.speed ∧
    (∀ windRand : ℚ, ∀ rnd : ℕ → ℚ × ℚ × ℚ,
      (handleResetRun wv hv windRand rnd st).boat.speed = 0) := by
  refine ⟨le_max_left 0 _, ?_, fun _ _ => rfl⟩
  rw [resolveTick]
  rcases resolveOutcome wv hv st.rocks st.boat.position with _ | _ | _ | _ <;>
    simp only [applyOutcome, applyHit]
  case goal => exact le_refl 0
  case rockHit => split_ifs <;> exact le_refl 0
  case wallHit => split_ifs <;> exact le_refl 0
  case noEvent => exact hs

/-- Witness for C8 at concrete inputs. -/
theorem speed_nonneg_invariant_witness :
    0 ≤ (kinematicsStep (fun _ => 1) (fun _ => 0) ⟨true, false⟩
        ⟨true, 1, 1, false⟩ ⟨0, 15⟩ ⟨⟨500, 400⟩, 1, 0, 0, 0⟩).speed ∧
    0 ≤ (resolveTick 1000 800
        ⟨1, 5, 1, 0, ⟨true, 1, 1, false⟩, ⟨⟨500, 400⟩, 0, 2, 0, 0⟩, [], 6⟩).boat.speed ∧
    (∀ windRand : ℚ, ∀ rnd : ℕ → ℚ × ℚ × ℚ,
      (handleResetRun 1000 800 windRand rnd
        ⟨1, 5, 1, 0, ⟨true, 1, 1, false⟩, ⟨⟨500, 400⟩, 0, 2, 0, 0⟩,
          [], 6⟩).boat.speed = 0) :=
  speed_nonneg_invariant (fun _ => 1) (fun _ => 0) ⟨true, false⟩
    ⟨true, 1, 1, false⟩ ⟨0, 15⟩ ⟨⟨500, 400⟩, 1, 0, 0, 0⟩ 1000 800
    ⟨1, 5, 1, 0, ⟨true, 1, 1, false⟩, ⟨⟨500, 400⟩, 0, 2, 0, 0⟩, [], 6⟩
    (by norm_num)

/-- Claim C9: a manual reset increments the rock count by exactly one,
regenerates the rock field with that count, resets lives to 5 and level
to 1, re-rolls the wind direction for level 1, and leaves the highscore
level and all upgrade fields unchanged. -/
theorem handleResetRun_effects (w h windRand : ℚ) (rnd : ℕ → ℚ × ℚ × ℚ)
    (st : GameState) :
    (handleResetRun w h windRand rnd st).rockCount = st.rockCount + 1 ∧
    (handleResetRun w h windRand rnd st).rocks = generateRandomRocks rnd
      { count := st.rockCount + 1, width := w, height := h, targetZoneWidth := 120,
        margin := 40, startX := w / 2, startY := h / 2, startSafeRadius := 220,
        minLeftCount := 2, leftMaxX := w * (38/100) } ∧
    (handleResetRun w h windRand rnd st).lives = 5 ∧
    (handleResetRun w h windRand rnd st).level = 1 ∧
    (handleResetRun w h windRand rnd st).windDirection =
      pickWindDirectionForLevel windRand 1 ∧
    (handleResetRun w h windRand rnd st).highscoreLevel = st.highscoreLevel ∧
    (handleResetRun w h windRand rnd st).upgrades = st.upgrades :=
  ⟨rfl, rfl, rfl, rfl, rfl, rfl, rfl⟩

/-- Claim C10: `normalizeAngle` lands in `[-π, π]` (here `[-1, 1]`) while
preserving the angle modulo `2π` (here modulo 2), and every heading write —
the kinematics step, every resolver reset, and the manual reset — goes
through `normalizeAngle`, so the heading invariant is preserved by every
tick. -/
theorem heading_normalized_invariant (q : ℚ) (cosF sinF : ℚ → ℚ) (keys : Keys)
    (u : Upgrades) (w : WindState) (b : BoatState) (wv hv : ℚ) (st : GameState)
    (hh1 : -1 ≤ st.boat.heading) (hh2 : st.boat.heading ≤ 1) :
    (-1 ≤ normalizeAngle q ∧ normalizeAngle q ≤ 1 ∧
      ∃ k : ℤ, q - normalizeAngle q = 2 * k) ∧
    (-1 ≤ (kinematicsStep cosF sinF keys u w b).heading ∧
      (kinematicsStep cosF sinF keys u w b).heading ≤ 1) ∧
    (-1 ≤ (resolveTick wv hv st).boat.heading ∧
      (resolveTick wv hv st).boat.heading ≤ 1) ∧
    (∀ windRand : ℚ, ∀ rnd : ℕ → ℚ × ℚ × ℚ,
      -1 ≤ (handleResetRun wv hv windRand rnd st).boat.heading ∧
        (handleResetRun wv hv windRand rnd st).boat.heading ≤ 1) := by
  obtain ⟨hq1, hq2⟩ := normalizeAngle_mem q
  refine ⟨⟨hq1, hq2, normalizeAngle_mod_two q⟩, ?_, ?_, fun _ _ => ?_⟩
  · exact normalizeAngle_mem _
  · rw [resolveTick]
    rcases resolveOutcome wv hv st.rocks st.boat.position with _ | _ | _ | _ <;>
      simp only [applyOutcome, applyHit]
    case goal => exact normalizeAngle_mem _
    case rockHit => split_ifs <;> exact normalizeAngle_mem _
    case wallHit => split_ifs <;> exact normalizeAngle_mem _
    case noEvent => exact ⟨hh1, hh2⟩
  · exact normalizeAngle_mem _

/-- Witness for C10 at concrete inputs. -/
theorem heading_normalized_invariant_witness :
    (-1 ≤ normalizeAngle (9/2) ∧ normalizeAngle (9/2) ≤ 1 ∧
      ∃ k : ℤ, 9/2 - normalizeAngle (9/2) = 2 * k) ∧
    (-1 ≤ (kinematicsStep (fun _ => 1) (fun _ => 0) ⟨true, false⟩
        ⟨true, 3, 1, false⟩ ⟨0, 15⟩ ⟨⟨500, 400⟩, 1, 0, 0, 0⟩).heading ∧
      (kinematicsStep (fun _ => 1) (fun _ => 0) ⟨true, false⟩
        ⟨true, 3, 1, false⟩ ⟨0, 15⟩ ⟨⟨500, 400⟩, 1, 0, 0, 0⟩).heading ≤ 1) ∧
    (-1 ≤ (resolveTick 1000 800
        ⟨1, 5, 1, 0, ⟨true, 1, 1, false⟩, ⟨⟨500, 400⟩, 1, 0, 0, 0⟩, [], 6⟩).boat.heading ∧
      (resolveTick 1000 800
        ⟨1, 5, 1, 0, ⟨true, 1, 1, false⟩, ⟨⟨500, 400⟩, 1, 0, 0, 0⟩,
          [], 6⟩).boat.heading ≤ 1) ∧
    (∀ windRand : ℚ, ∀ rnd : ℕ → ℚ × ℚ × ℚ,
      -1 ≤ (handleResetRun 1000 800 windRand rnd
          ⟨1, 5, 1, 0, ⟨true, 1, 1, false⟩, ⟨⟨500, 400⟩, 1, 0, 0, 0⟩,
            [], 6⟩).boat.heading ∧
        (handleResetRun 1000 800 windRand rnd
          ⟨1, 5, 1, 0, ⟨true, 1, 1, false⟩, ⟨⟨500, 400⟩, 1, 0, 0, 0⟩,
            [], 6⟩).boat.heading ≤ 1) :=
  heading_normalized_invariant (9/2) (fun _ => 1) (fun _ => 0) ⟨true, false⟩
    ⟨true, 3, 1, false⟩ ⟨0, 15⟩ ⟨⟨500, 400⟩, 1, 0, 0, 0⟩ 1000 800
    ⟨1, 5, 1, 0, ⟨true, 1, 1, false⟩, ⟨⟨500, 400⟩, 1, 0, 0, 0⟩, [], 6⟩
    (by norm_num) (by norm_num)

/-! ## Rock generator claims -/

theorem clamp_eq_self {x mn mx : ℚ} (h1 : mn ≤ x) (h2 : x ≤ mx) :
    clamp x mn mx = x := by
  rw [clamp, min_eq_right h2, max_eq_right h1]

/-- What a successful `tryAddRock` guarantees: the candidate is appended
(clamped), it clears the start circle, and it keeps the minimum gap to every
rock already placed. -/
theorem tryAddRock_eq_some {opts : RockOpts} {rocks rocks2 : List RockState}
    {x y radius : ℚ}
    (h : tryAddRock opts rocks x y radius = some rocks2) :
    rocks2 = rocks ++
      [⟨⟨clamp x (opts.targetZoneWidth + opts.margin) (opts.width - opts.margin),
         clamp y opts.margin (opts.height - opts.margin)⟩, radius⟩] ∧
    (x - opts.startX) * (x - opts.startX) + (y - opts.startY) * (y - opts.startY) ≥
      (opts.startSafeRadius + radius) * (opts.startSafeRadius + radius) ∧
    ∀ r ∈ rocks,
      (x - r.position.x) * (x - r.position.x) +
          (y - r.position.y) * (y - r.position.y) ≥
        (radius + r.radius + minGap) * (radius + r.radius + minGap) := by
  simp only [tryAddRock] at h
  by_cases h1 : (x - opts.startX) * (x - opts.startX) +
      (y - opts.startY) * (y - opts.startY) <
      (opts.startSafeRadius + radius) * (opts.startSafeRadius + radius)
  · rw [if_pos h1] at h
    exact Option.noConfusion h
  · rw [if_neg h1] at h
    by_cases h2 : (rocks.any fun r =>
        decide ((x - r.position.x) * (x - r.position.x) +
            (y - r.position.y) * (y - r.position.y) <
          (radius + r.radius + minGap) * (radius + r.radius + minGap))) = true
    · rw [if_pos h2] at h
      exact Option.noConfusion h
    · rw [if_neg h2] at h
      refine ⟨(Option.some_inj.mp h).symm, not_lt.mp h1, fun r hr => ?_⟩
      simp only [List.any_eq_true, decide_eq_true_eq, not_exists, not_and, not_lt] at h2
      exact h2 r hr

/-- A successful `tryAddRock` on an in-bounds candidate preserves the
pairwise-separation and start-clearance invariant. -/
theorem tryAddRock_preserves {opts : RockOpts} {rocks rocks2 : List RockState}
    {x y radius : ℚ}
    (hx1 : opts.targetZoneWidth + opts.margin ≤ x)
    (hx2 : x ≤ opts.width - opts.margin)
    (hy1 : opts.margin ≤ y) (hy2 : y ≤ opts.height - opts.margin)
    (hok : rocksOK opts rocks)
    (h : tryAddRock opts rocks x y radius = some rocks2) :
    rocksOK opts rocks2 := by
  obtain ⟨heq, hstart, hsep⟩ := tryAddRock_eq_some h
  rw [clamp_eq_self hx1 hx2, clamp_eq_self hy1 hy2] at heq
  subst heq
  constructor
  · rw [List.pairwise_append]
    refine ⟨hok.1, List.pairwise_singleton _ _, ?_⟩
    intro a ha b hb
    rw [List.mem_singleton] at hb
    subst hb
    have hs := hsep a ha
    have e1 : (a.position.x - x) * (a.position.x - x) =
        (x - a.position.x) * (x - a.position.x) := by ring
    have e2 : (a.position.y - y) * (a.position.y - y) =
        (y - a.position.y) * (y - a.position.y) := by ring
    have e3 : (a.radius + radius + minGap) * (a.radius + radius + minGap) =
        (radius + a.radius + minGap) * (radius + a.radius + minGap) := by ring
    show (a.position.x - x) * (a.position.x - x) +
        (a.position.y - y) * (a.position.y - y) ≥
      (a.radius + radius + minGap) * (a.radius + radius + minGap)
    linarith [hs, e1, e2, e3]
  · intro r hr
    rw [List.mem_append] at hr
    rcases hr with hr | hr
    · exact hok.2 r hr
    · rw [List.mem_singleton] at hr
      subst hr
      exact hstart

/-- The left pass preserves the invariant for any in-range sample stream,
provided the left sub-region sits inside the playable bounds. -/
theorem leftPass_preserves {rnd : ℕ → ℚ × ℚ × ℚ} {opts : RockOpts} {lx : ℚ}
    (hrnd : ∀ i, 0 ≤ (rnd i).2.1 ∧ (rnd i).2.1 < 1 ∧
      0 ≤ (rnd i).2.2 ∧ (rnd i).2.2 < 1)
    (hY : opts.margin + 1 ≤ opts.height - opts.margin)
    (hlx1 : opts.targetZoneWidth + opts.margin ≤ lx)
    (hlx2 : lx ≤ opts.width - opts.margin) :
    ∀ (fuel i p : ℕ) (rocks : List RockState), rocksOK opts rocks →
      rocksOK opts (leftPass rnd opts lx fuel i p rocks) := by
  intro fuel
  induction fuel with
  | zero =>
    intro i p rocks hok
    rw [leftPass]
    exact hok
  | succ fuel ih =>
    intro i p rocks hok
    rw [leftPass]
    split_ifs with hp
    · rcases htry : tryAddRock opts rocks
          (opts.targetZoneWidth + opts.margin +
            (rnd i).2.1 * (lx - (opts.targetZoneWidth + opts.margin)))
          (opts.margin + (rnd i).2.2 * max 1 (opts.height - opts.margin - opts.margin))
          (32 + (rnd i).1 * 28) with _ | rocks2
      · simp only [htry]
        exact ih (i + 1) p rocks hok
      · simp only [htry]
        refine ih (i + 1) (p + 1) rocks2
          (tryAddRock_preserves ?_ ?_ ?_ ?_ hok htry)
        · have := mul_nonneg (hrnd i).1
            (by linarith : (0:ℚ) ≤ lx - (opts.targetZoneWidth + opts.margin))
          linarith
        · have := mul_le_mul_of_nonneg_right (le_of_lt (hrnd i).2.1)
            (by linarith : (0:ℚ) ≤ lx - (opts.targetZoneWidth + opts.margin))
          linarith
        · rw [max_eq_right (by linarith : (1:ℚ) ≤ opts.height - opts.margin - opts.margin)]
          have := mul_nonneg (hrnd i).2.2.1
            (by linarith : (0:ℚ) ≤ opts.height - opts.margin - opts.margin)
          linarith
        · rw [max_eq_right (by linarith : (1:ℚ) ≤ opts.height - opts.margin - opts.margin)]
          have := mul_le_mul_of_nonneg_right (le_of_lt (hrnd i).2.2.2)
            (by linarith : (0:ℚ) ≤ opts.height - opts.margin - opts.margin)
          linarith
    · exact hok

/-- The main pass preserves the invariant for any in-range sample stream on
a large-enough field. -/
theorem mainPass_preserves {rnd : ℕ → ℚ × ℚ × ℚ} {opts : RockOpts}
    (hrnd : ∀ i, 0 ≤ (rnd i).2.1 ∧ (rnd i).2.1 < 1 ∧
      0 ≤ (rnd i).2.2 ∧ (rnd i).2.2 < 1)
    (hX : opts.targetZoneWidth + opts.margin + 1 ≤ opts.width - opts.margin)
    (hY : opts.margin + 1 ≤ opts.height - opts.margin) :
    ∀ (fuel i : ℕ) (rocks : List RockState), rocksOK opts rocks →
      rocksOK opts (mainPass rnd opts fuel i rocks) := by
  intro fuel
  induction fuel with
  | zero =>
    intro i rocks hok
    rw [mainPass]
    exact hok
  | succ fuel ih =>
    intro i rocks hok
    rw [mainPass]
    split_ifs with hp
    · rcases htry : tryAddRock opts rocks
          (opts.targetZoneWidth + opts.margin +
            (rnd i).2.1 *
              max 1 (opts.width - opts.margin - (opts.targetZoneWidth + opts.margin)))
          (opts.margin + (rnd i).2.2 * max 1 (opts.height - opts.margin - opts.margin))
          (32 + (rnd i).1 * 28) with _ | rocks2
      · simp only [htry]
        exact ih (i + 1) rocks hok
      · simp only [htry]
        refine ih (i + 1) rocks2 (tryAddRock_preserves ?_ ?_ ?_ ?_ hok htry)
        · rw [max_eq_right (by linarith :
            (1:ℚ) ≤ opts.width - opts.margin - (opts.targetZoneWidth + opts.margin))]
          have := mul_nonneg (hrnd i).1
            (by linarith :
              (0:ℚ) ≤ opts.width - opts.margin - (opts.targetZoneWidth + opts.margin))
          linarith
        · rw [max_eq_right (by linarith :
            (1:ℚ) ≤ opts.width - opts.margin - (opts.targetZoneWidth + opts.margin))]
          have := mul_le_mul_of_nonneg_right (le_of_lt (hrnd i).2.1)
            (by linarith :
              (0:ℚ) ≤ opts.width - opts.margin - (opts.targetZoneWidth + opts.margin))
          linarith
        · rw [max_eq_right (by linarith : (1:ℚ) ≤ opts.height - opts.margin - opts.margin)]
          have := mul_nonneg (hrnd i).2.2.1
            (by linarith : (0:ℚ) ≤ opts.height - opts.margin - opts.margin)
          linarith
        · rw [max_eq_right (by linarith : (1:ℚ) ≤ opts.height - opts.margin - opts.margin)]
          have := mul_le_mul_of_nonneg_right (le_of_lt (hrnd i).2.2.2)
            (by linarith : (0:ℚ) ≤ opts.height - opts.margin - opts.margin)
          linarith
    · exact hok

/-- Claim C2 as amended: for every sample stream (with samples in `[0, 1)`)
and every configuration whose field is large enough (at least one unit of
playable range in each axis), all returned rocks are pairwise separated by
at least `r1 + r2 + minGap` (squared form) and every returned rock clears
the start-safety circle.  The third part of the original claim — that at
least `min(minLeftCount, count)` rocks land in the left sub-region — does
not hold for every stream: the bounded rejection sampling may exhaust its
attempt budget (see the counterexample), so left-region placement is only
attempted, not guaranteed. -/
theorem generateRandomRocks_separated (rnd : ℕ → ℚ × ℚ × ℚ) (opts : RockOpts)
    (hrnd : ∀ i, 0 ≤ (rnd i).2.1 ∧ (rnd i).2.1 < 1 ∧
      0 ≤ (rnd i).2.2 ∧ (rnd i).2.2 < 1)
    (hX : opts.targetZoneWidth + opts.margin + 1 ≤ opts.width - opts.margin)
    (hY : opts.margin + 1 ≤ opts.height - opts.margin) :
    (generateRandomRocks rnd opts).Pairwise rockSep ∧
    ∀ r ∈ generateRandomRocks rnd opts, clearsStart opts r := by
  have hbase : rocksOK opts [] :=
    ⟨List.Pairwise.nil, fun r hr => absurd hr (List.not_mem_nil r)⟩
  rw [generateRandomRocks]
  apply mainPass_preserves hrnd hX hY
  split_ifs with hg
  · refine leftPass_preserves hrnd hY ?_ ?_ _ _ _ _ hbase
    · exact le_trans (by linarith) (le_max_left _ _)
    · exact max_le (by linarith) (min_le_right _ _)
  · exact hbase

/-- Witness for (amended) C2 at the concrete App configuration and the
all-zeros sample stream. -/
theorem generateRandomRocks_separated_witness :
    (generateRandomRocks rnd0 opts0).Pairwise rockSep ∧
    ∀ r ∈ generateRandomRocks rnd0 opts0, clearsStart opts0 r :=
  generateRandomRocks_separated rnd0 opts0
    (fun _ => by norm_num [rnd0])
    (by norm_num [opts0]) (by norm_num [opts0])

theorem cex_try_empty : tryAddRock opts0 [] 160 40 32 = some [rock0] := by
  rw [tryAddRock]
  rw [if_neg (by norm_num [opts0] :
    ¬ ((160:ℚ) - opts0.startX) * (160 - opts0.startX) +
        (40 - opts0.startY) * (40 - opts0.startY) <
      (opts0.startSafeRadius + 32) * (opts0.startSafeRadius + 32))]
  rw [if_neg (by simp : ¬ (List.any ([] : List RockState) _ = true))]
  rw [show clamp 160 (opts0.targetZoneWidth + opts0.margin) (opts0.width - opts0.margin)
      = (160:ℚ) from clamp_eq_self (by norm_num [opts0]) (by norm_num [opts0])]
  rw [show clamp 40 opts0.margin (opts0.height - opts0.margin) = (40:ℚ) from
    clamp_eq_self (by norm_num [opts0]) (by norm_num [opts0])]
  rfl

theorem cex_try_occupied : tryAddRock opts0 [rock0] 160 40 32 = none := by
  rw [tryAddRock]
  rw [if_neg (by norm_num [opts0] :
    ¬ ((160:ℚ) - opts0.startX) * (160 - opts0.startX) +
        (40 - opts0.startY) * (40 - opts0.startY) <
      (opts0.startSafeRadius + 32) * (opts0.startSafeRadius + 32))]
  rw [if_pos]
  rw [List.any_cons]
  apply Bool.or_eq_true_iff.mpr
  left
  rw [decide_eq_true_eq]
  norm_num [rock0, minGap]

theorem cex_scrutinee_left (i : ℕ) (rocks : List RockState) :
    tryAddRock opts0 rocks
      (opts0.targetZoneWidth + opts0.margin +
        (rnd0 i).2.1 * (380 - (opts0.targetZoneWidth + opts0.margin)))
      (opts0.margin + (rnd0 i).2.2 * max 1 (opts0.height - opts0.margin - opts0.margin))
      (32 + (rnd0 i).1 * 28) = tryAddRock opts0 rocks 160 40 32 := by
  norm_num [rnd0, opts0]

theorem cex_scrutinee_main (i : ℕ) (rocks : List RockState) :
    tryAddRock opts0 rocks
      (opts0.targetZoneWidth + opts0.margin +
        (rnd0 i).2.1 *
          max 1 (opts0.width - opts0.margin - (opts0.targetZoneWidth + opts0.margin)))
      (opts0.margin + (rnd0 i).2.2 * max 1 (opts0.height - opts0.margin - opts0.margin))
      (32 + (rnd0 i).1 * 28) = tryAddRock opts0 rocks 160 40 32 := by
  norm_num [rnd0, opts0]

theorem cex_left_stuck : ∀ fuel i : ℕ,
    leftPass rnd0 opts0 380 fuel i 1 [rock0] = [rock0] := by
  intro fuel
  induction fuel with
  | zero =>
    intro i
    rw [leftPass]
  | succ fuel ih =>
    intro i
    rw [leftPass, if_pos (by norm_num [opts0] : 1 < min opts0.minLeftCount opts0.count)]
    rw [cex_scrutinee_left i [rock0], cex_try_occupied]
    exact ih (i + 1)

theorem cex_main_stuck : ∀ fuel i : ℕ,
    mainPass rnd0 opts0 fuel i [rock0] = [rock0] := by
  intro fuel
  induction fuel with
  | zero =>
    intro i
    rw [mainPass]
  | succ fuel ih =>
    intro i
    rw [mainPass, if_pos (by norm_num [opts0] : List.length [rock0] < opts0.count)]
    rw [cex_scrutinee_main i [rock0], cex_try_occupied]
    exact ih (i + 1)

theorem cex_gen : generateRandomRocks rnd0 opts0 = [rock0] := by
  rw [generateRandomRocks]
  have hlx : max (opts0.targetZoneWidth + opts0.margin + 1)
      (min opts0.leftMaxX (opts0.width - opts0.margin)) = (380:ℚ) := by
    rw [min_eq_left (by norm_num [opts0])]
    rw [max_eq_right (by norm_num [opts0])]
    rfl
  rw [hlx]
  rw [if_pos (by norm_num [opts0] :
    opts0.targetZoneWidth + opts0.margin < (380:ℚ))]
  have hfirst : leftPass rnd0 opts0 380 maxAttempts 0 0 [] = [rock0] := by
    rw [show maxAttempts = 2999 + 1 from rfl]
    rw [leftPass, if_pos (by norm_num [opts0] : 0 < min opts0.minLeftCount opts0.count)]
    rw [cex_scrutinee_left 0 [], cex_try_empty]
    exact cex_left_stuck 2999 1
  rw [hfirst]
  exact cex_main_stuck maxAttempts maxAttempts

/-- Claim C2 counterexample: at the App's own configuration on a 1000×800
field (`count = minLeftCount = 2`, left region `[160, 380]` wide and far
from the start circle), the legal all-zeros sample stream makes every
attempt after the first collide with the first rock, so the generator
returns one single rock — fewer than `min(minLeftCount, count) = 2` rocks
lie in the left sub-region. -/
theorem generateRandomRocks_leftCount_cex :
    generateRandomRocks rnd0 opts0 = [rock0] ∧
    List.countP (fun r => decide (opts0.targetZoneWidth + opts0.margin ≤ r.position.x ∧
        r.position.x ≤ opts0.leftMaxX)) (generateRandomRocks rnd0 opts0) <
      min opts0.minLeftCount opts0.count := by
  refine ⟨cex_gen, ?_⟩
  rw [cex_gen]
  have hle := List.countP_le_length
    (p := fun r : RockState => decide (opts0.targetZoneWidth + opts0.margin ≤ r.position.x ∧
      r.position.x ≤ opts0.leftMaxX)) (l := [rock0])
  have hlen : ([rock0] : List RockState).length = 1 := rfl
  have hmin : min opts0.minLeftCount opts0.count = 2 := rfl
  omega

end SegelSim
